import Mathlib

/-!
Verification development for the roadmap_builder agent pipeline core
(server/app/agents: state.py, base.py, architect.py, researcher.py,
validator.py, editor.py, youtube.py, orchestrator.py, plus
server/app/model_config.py).

The Python source is shallowly embedded: pure post-processing steps become
Lean functions, LLM and network calls become environment parameters giving
each call site its outcome, and Python runtime failures (TypeError from
keyword-argument binding, AttributeError from reading an undeclared pydantic
field, IndexError from list indexing) are made explicit through an error
type.  Python semantics that matter here are modelled directly:

- a call whose keyword-argument names are not all parameter names of the
  callee raises TypeError before the callee body runs;
- reading an attribute that the pydantic model does not declare raises
  AttributeError (pydantic models hold exactly their declared fields);
- list indexing accepts negative indices, counting from the end, and raises
  IndexError when out of range;
- the `or` chain over optional strings picks the first truthy value, where
  the empty string and None are falsy.
-/

namespace RoadmapBuilder

/-- Python runtime errors surfaced by the embedded code. -/
inductive PyErr
  | typeError (msg : String)
  | attributeError (msg : String)
  | indexError
  | valueError (msg : String)
  deriving DecidableEq

/-- Message carried by a Python error (used for PipelineState.error_message). -/
def pyErrMessage : PyErr → String
  | .typeError m => m
  | .attributeError m => m
  | .indexError => "list index out of range"
  | .valueError m => m

/-- Keyword-argument binding check: a Python call raises TypeError when some
keyword argument name is not among the parameter names of the callee. -/
def pyKwargsOk (params kwargs : List String) : Bool :=
  kwargs.all (fun k => params.contains k)

/-- Python list indexing: non-negative indices from the front, negative
indices from the back; none when out of range (IndexError). -/
def pyIndex {α : Type} (xs : List α) (i : Int) : Option α :=
  if 0 ≤ i then xs.get? i.toNat
  else if 0 ≤ i + xs.length then xs.get? (i + xs.length).toNat else none

/-- Python `a or b` for a string-or-None left operand: falls through on None
and on the empty string (both falsy). -/
def pyOr (a : Option String) (b : String) : String :=
  match a with
  | some s => if s == "" then b else s
  | none => b

/-- Python truthiness of a string-or-None value. -/
def pyTruthyOptStr (o : Option String) : Bool :=
  match o with
  | some s => !(s == "")
  | none => false

/-- ASCII lowercase of one character (the strings the source lowercases are
ASCII enum values, so the ASCII model of str.lower is faithful here). -/
def pyCharLower (c : Char) : Char :=
  if 65 ≤ c.toNat ∧ c.toNat ≤ 90 then Char.ofNat (c.toNat + 32) else c

/-- ASCII model of Python str.lower. -/
def pyStrLower (s : String) : String :=
  ⟨s.data.map pyCharLower⟩

/-! ## Data model (state.py) -/

/-- Kinds of learning sessions (state.py SessionType). -/
inductive SessionType
  | concept
  | tutorial
  | practice
  | project
  | review
  deriving DecidableEq

/-- Example answer option for an interview question (state.py ExampleOption). -/
structure ExampleOption where
  label : String
  text : String
  deriving DecidableEq

/-- A clarifying question from the interviewer agent (state.py InterviewQuestion). -/
structure InterviewQuestion where
  id : String
  question : String
  purpose : String
  example_options : List ExampleOption
  allows_freeform : Bool
  deriving DecidableEq

/-- User answer to an interview question (state.py InterviewAnswer). -/
structure InterviewAnswer where
  question_id : String
  answer : String
  deriving DecidableEq

/-- Accumulated interview context (state.py InterviewContext). -/
structure InterviewContext where
  topic : String
  questions : List InterviewQuestion
  answers : List InterviewAnswer
  deriving DecidableEq

/-- A session outline item from the architect agent (state.py SessionOutlineItem). -/
structure SessionOutlineItem where
  id : String
  title : String
  objective : String
  session_type : SessionType
  estimated_duration_minutes : Int
  prerequisites : List String
  order : Int
  deriving DecidableEq

/-- Complete session outline (state.py SessionOutline). -/
structure SessionOutline where
  sessions : List SessionOutlineItem
  learning_path_summary : String
  total_estimated_hours : ℚ
  deriving DecidableEq

/-- YouTube video resource (state.py VideoResource). -/
structure VideoResource where
  url : String
  title : String
  channel : String
  thumbnail_url : String
  duration_minutes : Option Int
  description : Option String
  deriving DecidableEq

/-- A fully researched session (state.py ResearchedSession). -/
structure ResearchedSession where
  outline_id : String
  title : String
  session_type : SessionType
  order : Int
  content : String
  key_concepts : List String
  resources : List String
  exercises : List String
  videos : List VideoResource
  language : String
  deriving DecidableEq

/-- Issue categories the validator can emit (state.py ValidationIssueType). -/
inductive ValidationIssueType
  | overlap
  | gap
  | ordering
  | coherence
  | depth
  deriving DecidableEq

/-- A single validation issue (state.py ValidationIssue).  The severity is the
string literal low / medium / high, as in the source. -/
structure ValidationIssue where
  id : String
  issue_type : ValidationIssueType
  severity : String
  description : String
  affected_session_ids : List String
  suggested_fix : String
  deriving DecidableEq

/-- Complete validation result (state.py ValidationResult). -/
structure ValidationResult where
  is_valid : Bool
  issues : List ValidationIssue
  overall_score : ℚ
  summary : String
  deriving DecidableEq

/-- Stages of the creation pipeline (state.py PipelineStage). -/
inductive PipelineStage
  | initialized
  | interviewing
  | architecting
  | researching
  | validating
  | user_review
  | revising
  | saving
  | complete
  | error
  deriving DecidableEq

/-- Pipeline run state (state.py PipelineState, lines 170-210).  Only fields
the embedded pipeline reads or writes are carried; the full declared field
name list is pipelineStateFieldNames below.  Note that state.py declares
neither fix_attempt nor fix_history. -/
structure PipelineState where
  pipeline_id : String
  user_id : String
  topic : String
  language : String
  stage : PipelineStage
  interview_questions : List InterviewQuestion
  interview_answers : List InterviewAnswer
  suggested_title : Option String
  confirmed_title : Option String
  session_outline : Option SessionOutline
  researched_sessions : List ResearchedSession
  research_progress : Nat
  research_total : Nat
  validation_result : Option ValidationResult
  user_selected_issues : List String
  roadmap_id : Option String
  error_message : Option String
  deriving DecidableEq

/-- The complete list of field names pydantic declares on PipelineState
(state.py lines 170-210).  fix_attempt and fix_history do not appear, even
though orchestrator.py reads and writes them (lines 242, 245, 257, 282, 288,
611, 630). -/
def pipelineStateFieldNames : List String :=
  [ "pipeline_id", "user_id", "topic", "language", "stage",
    "stage_started_at", "interview_questions", "interview_answers",
    "interview_context", "suggested_title", "confirmed_title",
    "session_outline", "researched_sessions", "research_progress",
    "research_total", "validation_result", "user_selected_issues",
    "roadmap_id", "error_message", "created_at", "updated_at" ]

/-- Whether pydantic declares a fix_attempt field on PipelineState. -/
def fixAttemptDefined : Bool := pipelineStateFieldNames.contains "fix_attempt"

/-- Whether pydantic declares a fix_history field on PipelineState. -/
def fixHistoryDefined : Bool := pipelineStateFieldNames.contains "fix_history"

/-- Message of the AttributeError raised on reading state.fix_attempt. -/
def fixAttemptMissingMsg : String :=
  "PipelineState object has no attribute fix_attempt"

/-- Message of the AttributeError raised on reading state.fix_history. -/
def fixHistoryMissingMsg : String :=
  "PipelineState object has no attribute fix_history"

/-- Reading self.state.fix_attempt: were the field declared it would hold the
tracked counter n; since state.py does not declare it, pydantic raises
AttributeError. -/
def readFixAttempt (n : Nat) : Except PyErr Nat :=
  if fixAttemptDefined then .ok n else .error (.attributeError fixAttemptMissingMsg)

/-- Reading self.state.fix_history (for the append at orchestrator.py:630):
raises AttributeError since state.py does not declare the field. -/
def readFixHistory : Except PyErr Unit :=
  if fixHistoryDefined then .ok () else .error (.attributeError fixHistoryMissingMsg)

/-! ## Title resolution (orchestrator.py _save_roadmap, line 750) -/

/-- Embeds `self.state.confirmed_title or self.state.suggested_title or
self.state.topic[:100]`. -/
def resolve_title (confirmed suggested : Option String) (topic : String) : String :=
  pyOr confirmed (pyOr suggested (topic.take 100))

/-- One persisted session document (models/session.py fields written by
_save_roadmap, orchestrator.py lines 767-775). -/
structure SavedSession where
  order : Int
  title : String
  content : String
  videos : List VideoResource
  deriving DecidableEq

/-- The persisted roadmap document (orchestrator.py lines 752-787). -/
structure SavedRoadmap where
  title : String
  summary : String
  language : String
  sessions : List SavedSession
  deriving DecidableEq

/-- _save_roadmap (orchestrator.py lines 741-795): sets stage saving, resolves
the title, persists the roadmap and one document per researched session, and
records the roadmap id on the state. -/
def save_roadmap (roadmapId : String) (st : PipelineState) (outline : SessionOutline)
    (sessions : List ResearchedSession) : PipelineState × SavedRoadmap :=
  let st1 := { st with stage := PipelineStage.saving }
  let title := resolve_title st.confirmed_title st.suggested_title st.topic
  let roadmap : SavedRoadmap :=
    { title := title
      summary := outline.learning_path_summary
      language := st.language
      sessions := sessions.map (fun rs =>
        { order := rs.order, title := rs.title, content := rs.content, videos := rs.videos }) }
  ({ st1 with roadmap_id := some roadmapId }, roadmap)

/-! ## Architect agent (architect.py) -/

/-- Phase 1 minimal session info (architect.py SessionOutlineMinimal). -/
structure SessionOutlineMinimal where
  title : String
  session_type : String
  deriving DecidableEq

/-- Phase 1 response (architect.py ArchitectPhase1Response). -/
structure ArchitectPhase1Response where
  title : String
  sessions : List SessionOutlineMinimal
  learning_path_summary : String
  deriving DecidableEq

/-- Phase 2 per-session detail response (architect.py SessionDetailResponse).
Prerequisite indices are raw model output and may be any integers. -/
structure SessionDetailResponse where
  objective : String
  estimated_duration_minutes : Int
  prerequisites : List Int
  deriving DecidableEq

/-- SessionType(value.lower()) with ValueError defaulting to CONCEPT
(architect.py lines 182-185). -/
def parseSessionType (s : String) : SessionType :=
  match pyStrLower s with
  | "concept" => SessionType.concept
  | "tutorial" => SessionType.tutorial
  | "practice" => SessionType.practice
  | "project" => SessionType.project
  | "review" => SessionType.review
  | _ => SessionType.concept

/-- The prerequisite comprehension of architect.py line 194-196:
`[sessions[idx].id for idx in details.prerequisites if idx < len(sessions)]`
evaluated left to right over the list of already-built sessions.  The guard
keeps every index below the current session count, including negative ones,
and indexing then follows Python semantics (negative wrap-around, IndexError
when below -len). -/
def resolvePrereqs (built : List SessionOutlineItem) : List Int → Except PyErr (List String)
  | [] => .ok []
  | idx :: rest =>
    if idx < (built.length : Int) then
      match pyIndex built idx with
      | some item =>
        match resolvePrereqs built rest with
        | .ok tl => .ok (item.id :: tl)
        | .error e => .error e
      | none => .error .indexError
    else resolvePrereqs built rest

/-- The combine loop of architect.py create_outline lines 178-199: builds the
SessionOutlineItem list from the zipped Phase 1 minimals and Phase 2 details,
with ids supplied by the uuid generator, order assigned 1-based by position. -/
def buildSessions (ids : Nat → String) :
    List (SessionOutlineMinimal × SessionDetailResponse) → List SessionOutlineItem → Nat →
    Except PyErr (List SessionOutlineItem)
  | [], built, _ => .ok built
  | (minimal, details) :: rest, built, i =>
    match resolvePrereqs built details.prerequisites with
    | .error e => .error e
    | .ok prereqs =>
      let item : SessionOutlineItem :=
        { id := ids i
          title := minimal.title
          objective := details.objective
          session_type := parseSessionType minimal.session_type
          estimated_duration_minutes := details.estimated_duration_minutes
          prerequisites := prereqs
          order := (i : Int) + 1 }
      buildSessions ids rest (built ++ [ item ]) (i + 1)

/-- Round-half-to-even of a rational to an integer (the rounding used by the
Python round builtin; the source applies it to an exact multiple of 1/60, so
the rational model is faithful there). -/
def roundHalfEvenInt (x : ℚ) : Int :=
  let f := Int.floor x
  let frac := x - (f : ℚ)
  if frac < 1 / 2 then f
  else if 1 / 2 < frac then f + 1
  else if f % 2 = 0 then f else f + 1

/-- Python round(x, 1). -/
def roundTenths (x : ℚ) : ℚ := (roundHalfEvenInt (x * 10) : ℚ) / 10

/-- ArchitectAgent.create_outline (architect.py lines 146-211) after the LLM
calls: combines Phase 1 and Phase 2 responses into the outline, computing
total_estimated_hours = round(total_minutes / 60, 1), and returns the
suggested title with the outline. -/
def create_outline (phase1 : ArchitectPhase1Response) (details : List SessionDetailResponse)
    (ids : Nat → String) : Except PyErr (String × SessionOutline) :=
  match buildSessions ids (phase1.sessions.zip details) [] 0 with
  | .error e => .error e
  | .ok sessions =>
    let totalMinutes : Int := sessions.foldl (fun a s => a + s.estimated_duration_minutes) 0
    let totalHours := roundTenths ((totalMinutes : ℚ) / 60)
    .ok (phase1.title,
      { sessions := sessions
        learning_path_summary := phase1.learning_path_summary
        total_estimated_hours := totalHours })

/-- Parameter names of ArchitectAgent.create_outline besides self
(architect.py lines 146-149). -/
def createOutlineParams : List String := [ "interview_context" ]

/-- Keyword-argument names passed at the call site orchestrator.py lines
351-354 (interview_context is passed positionally, language by keyword). -/
def architectCallKwargs : List String := [ "language" ]

/-! ## Researcher agent (researcher.py) -/

/-- Researcher output schema (researcher.py ResearchResponse). -/
structure ResearchResponse where
  content : String
  key_concepts : List String
  resources : List String
  exercises : List String
  deriving DecidableEq

/-- ResearcherAgent.research_session result construction (researcher.py lines
88-97): builds the ResearchedSession from the outline item and the response;
videos and language keep their state.py defaults. -/
def research_session (outline_item : SessionOutlineItem) (response : ResearchResponse) :
    ResearchedSession :=
  { outline_id := outline_item.id
    title := outline_item.title
    session_type := outline_item.session_type
    order := outline_item.order
    content := response.content
    key_concepts := response.key_concepts
    resources := response.resources
    exercises := response.exercises
    videos := []
    language := "en" }

/-- Parameter names of ResearcherAgent.research_session besides self
(researcher.py lines 43-49). -/
def researchSessionParams : List String :=
  [ "outline_item", "interview_context", "previous_sessions", "language" ]

/-- Keyword-argument names passed at the call site orchestrator.py lines
426-431: all_session_outlines is not a parameter of research_session. -/
def researchCallKwargs : List String :=
  [ "outline_item", "interview_context", "all_session_outlines", "language" ]

/-! ## Validator agent (validator.py) -/

/-- Raw validator issue schema (validator.py IssueResponse). -/
structure IssueResponse where
  issue_type : String
  severity : String
  description : String
  affected_session_indices : List Int
  suggested_fix : String
  deriving DecidableEq

/-- Raw validator response schema (validator.py ValidatorResponse). -/
structure ValidatorResponse where
  is_valid : Bool
  issues : List IssueResponse
  overall_score : ℚ
  summary : String
  deriving DecidableEq

/-- ValidationIssueType(value.lower()) with ValueError defaulting to
COHERENCE (validator.py lines 99-102). -/
def parseIssueType (s : String) : ValidationIssueType :=
  match pyStrLower s with
  | "overlap" => ValidationIssueType.overlap
  | "gap" => ValidationIssueType.gap
  | "ordering" => ValidationIssueType.ordering
  | "coherence" => ValidationIssueType.coherence
  | "depth" => ValidationIssueType.depth
  | _ => ValidationIssueType.coherence

/-- Severity normalisation (validator.py lines 104-106): lowercase, anything
outside low / medium / high becomes medium. -/
def normalizeSeverity (s : String) : String :=
  let t := pyStrLower s
  if t == "low" || t == "medium" || t == "high" then t else "medium"

/-- The affected-ids comprehension of validator.py lines 109-113:
`[researched_sessions[idx].outline_id for idx in issue.affected_session_indices
if idx < len(researched_sessions)]` with Python indexing semantics. -/
def resolveAffected (sessions : List ResearchedSession) : List Int → Except PyErr (List String)
  | [] => .ok []
  | idx :: rest =>
    if idx < (sessions.length : Int) then
      match pyIndex sessions idx with
      | some s =>
        match resolveAffected sessions rest with
        | .ok tl => .ok (s.outline_id :: tl)
        | .error e => .error e
      | none => .error .indexError
    else resolveAffected sessions rest

/-- The issue-conversion loop of validator.py lines 97-124, with issue ids
supplied by the uuid generator. -/
def buildIssues (sessions : List ResearchedSession) (ids : Nat → String) :
    List IssueResponse → Nat → Except PyErr (List ValidationIssue)
  | [], _ => .ok []
  | r :: rest, n =>
    match resolveAffected sessions r.affected_session_indices with
    | .error e => .error e
    | .ok affected =>
      match buildIssues sessions ids rest (n + 1) with
      | .error e => .error e
      | .ok tl =>
        .ok ({ id := ids n
               issue_type := parseIssueType r.issue_type
               severity := normalizeSeverity r.severity
               description := r.description
               affected_session_ids := affected
               suggested_fix := r.suggested_fix } :: tl)

/-- ValidatorAgent.validate (validator.py lines 46-134) after the LLM call:
converts the raw response and computes is_valid as the absence of any
high-severity issue (lines 126-134); the raw is_valid flag is ignored. -/
def validate (resp : ValidatorResponse) (sessions : List ResearchedSession)
    (ids : Nat → String) : Except PyErr ValidationResult :=
  match buildIssues sessions ids resp.issues 0 with
  | .error e => .error e
  | .ok issues =>
    .ok { is_valid := !(issues.any (fun i => i.severity == "high"))
          issues := issues
          overall_score := resp.overall_score
          summary := resp.summary }

/-! ## Editor agent (editor.py) -/

/-- Editor output schema (editor.py EditorResponse). -/
structure EditorResponse where
  edited_content : String
  needs_research : Bool
  research_request : Option String
  deriving DecidableEq

/-- Gap-fill research schema (editor.py ResearchSectionResponse). -/
structure ResearchSectionResponse where
  section_content : String
  suggested_heading : Option String
  deriving DecidableEq

/-- EditorAgent._merge_research (editor.py lines 219-231): appends the
research section at the end under its heading. -/
def mergeResearch (edited_content : String) (research : ResearchSectionResponse) : String :=
  edited_content ++ "\n\n## " ++ pyOr research.suggested_heading "Additional Information"
    ++ "\n\n" ++ research.section_content

/-- EditorAgent.edit_session (editor.py lines 47-163) after the LLM calls:
merges the optional gap-fill section (requested only when needs_research is
set and research_request is truthy; a failed fetch yields none and the
primary edit stands), then rebuilds the session.  Note line 162: language is
taken from the language parameter, not from the input session. -/
def edit_session (session : ResearchedSession) (response : EditorResponse)
    (research : Option ResearchSectionResponse) (language : String) : ResearchedSession :=
  let edited :=
    if response.needs_research && pyTruthyOptStr response.research_request then
      match research with
      | some sec => mergeResearch response.edited_content sec
      | none => response.edited_content
    else response.edited_content
  { outline_id := session.outline_id
    title := session.title
    session_type := session.session_type
    order := session.order
    content := edited
    key_concepts := session.key_concepts
    resources := session.resources
    exercises := session.exercises
    videos := session.videos
    language := language }

/-! ## Model gateway (base.py generate_structured, lines 261-338) -/

/-- Terminal error of generate_structured.  The source raises at base.py:338
with the message built from the attempt count and the last underlying
parse/validation error; the spec names this terminal exhaustion failure
GenerationExhaustedError. -/
inductive GenError
  | exhausted (attempts : Nat) (lastError : Option String)
  deriving DecidableEq

/-- The retry loop of base.py lines 284-338.  attemptResult k is the combined
outcome of the k-th underlying generation plus parse/validation (each attempt
is a fresh call); parse failures are caught and retried.  Returns the result
together with the number of underlying generation attempts performed. -/
def generateStructuredGo {α : Type} (attemptResult : Nat → Except String α) :
    Nat → Nat → Option String → (Except GenError α) × Nat
  | 0, k, lastErr => (.error (.exhausted k lastErr), k)
  | n + 1, k, _lastErr =>
    match attemptResult k with
    | .ok v => (.ok v, k + 1)
    | .error e => generateStructuredGo attemptResult n (k + 1) (some e)

/-- BaseAgent.generate_structured (base.py lines 261-338): up to
max_retries + 1 attempts; on exhaustion raises the terminal error carrying
the last underlying error. -/
def generate_structured {α : Type} (maxRetries : Nat) (attemptResult : Nat → Except String α) :
    (Except GenError α) × Nat :=
  generateStructuredGo attemptResult (maxRetries + 1) 0 none

/-! ## Network retry (model_config.py lines 18-21; base.py helper)

The helper `_call_with_network_retry` and the set `RETRYABLE_NETWORK_ERRORS`
are imported and exercised by tests/unit/test_network_retry.py and configured
by model_config.py, but the helper itself is absent from
src/server/app/agents/base.py.  It is modelled below from the spec. -/

/-- Outcome classification of one raw provider call: network errors are the
members of RETRYABLE_NETWORK_ERRORS (connection reset, timeout, transient
I/O per the tests); anything else, including parse failures, is other. -/
inductive NetCallError
  | network (msg : String)
  | other (msg : String)
  deriving DecidableEq

/-- Number of network retry attempts (model_config.py line 19). -/
def NETWORK_RETRY_ATTEMPTS : Nat := 3

/-- Initial backoff delay in seconds (model_config.py line 20). -/
def NETWORK_RETRY_BASE_DELAY : ℚ := 1

/-- Maximum backoff delay in seconds (model_config.py line 21). -/
def NETWORK_RETRY_MAX_DELAY : ℚ := 30

/-- Backoff delay before retry k+1: base delay doubled each retry, capped at
the maximum delay. -/
def backoffDelay (k : Nat) : ℚ :=
  min (NETWORK_RETRY_BASE_DELAY * 2 ^ k) NETWORK_RETRY_MAX_DELAY

/-- Modelled from the spec: the retry loop of the missing
`_call_with_network_retry` (spec section 4.1 and model_config.py): network
errors are retried with exponential backoff within a fixed attempt budget,
non-network errors propagate immediately, and an exhausted budget surfaces
the raw network error.  Returns the result, the number of raw call attempts,
and the list of sleep delays taken between attempts. -/
def callWithNetworkRetryGo {α : Type} (call : Nat → Except NetCallError α) :
    Nat → Nat → List ℚ → (Except NetCallError α) × Nat × List ℚ
  | 0, k, sleeps => (.error (.other "zero attempt budget"), k, sleeps)
  | fuel + 1, k, sleeps =>
    match call k with
    | .ok v => (.ok v, k + 1, sleeps)
    | .error (.network m) =>
      if fuel = 0 then (.error (.network m), k + 1, sleeps)
      else callWithNetworkRetryGo call fuel (k + 1) (sleeps ++ [ backoffDelay k ])
    | .error (.other m) => (.error (.other m), k + 1, sleeps)

/-- Modelled from the spec: `_call_with_network_retry` entry point with the
configured attempt budget. -/
def call_with_network_retry {α : Type} (call : Nat → Except NetCallError α) :
    (Except NetCallError α) × Nat × List ℚ :=
  callWithNetworkRetryGo call NETWORK_RETRY_ATTEMPTS 0 []

/-! ## Video finder (youtube.py) -/

/-- Outcome of one attempt at the primary tier (_find_videos_via_api):
either a video list, a QuotaExhaustedError, a ValueError for a missing API
key, or some other exception. -/
inductive PrimaryOutcome
  | ok (videos : List VideoResource)
  | quota
  | missingKey
  | fail (e : PyErr)

/-- YouTubeAgent.find_videos (youtube.py lines 78-101) as a transition on the
class-level _quota_exhausted flag (youtube.py lines 64-65).  Returns the new
flag, whether the primary tier was invoked, and the result; the fallback
argument is the outcome of _find_videos_via_gemini_with_verification for this
call.  No code path ever resets the flag to false. -/
def find_videos (flag : Bool) (primary : PrimaryOutcome)
    (fallback : Except PyErr (List VideoResource)) :
    Bool × Bool × Except PyErr (List VideoResource) :=
  if flag then (true, false, fallback)
  else
    match primary with
    | .ok vs => (false, true, .ok vs)
    | .quota => (true, true, fallback)
    | .missingKey => (true, true, fallback)
    | .fail e => (false, true, .error e)

/-- A sequence of find_videos calls in one process, threading the class-level
flag; each call is given its primary-tier outcome and fallback result.
Records, per call, whether the primary tier was invoked and the result. -/
def processCalls (flag : Bool) :
    List (PrimaryOutcome × Except PyErr (List VideoResource)) →
    List (Bool × Except PyErr (List VideoResource))
  | [] => []
  | c :: rest =>
    let r := find_videos flag c.1 c.2
    (r.2.1, r.2.2) :: processCalls r.1 rest

/-- The class-level flag after a sequence of find_videos calls. -/
def flagAfter (flag : Bool) (l : List (PrimaryOutcome × Except PyErr (List VideoResource))) :
    Bool :=
  l.foldl (fun f c => (find_videos f c.1 c.2).1) flag

/-! ## Orchestrator (orchestrator.py) -/

/-- Environment of one pipeline run: the outcome of every LLM / provider call
the orchestrator can make, indexed by call site.  Generated identifiers
(uuid-based session, issue and roadmap ids) are supplied as functions. -/
structure PipelineEnv where
  phase1 : ArchitectPhase1Response
  details : List SessionDetailResponse
  sessionIds : Nat → String
  research : Nat → Except PyErr ResearchResponse
  primary : Nat → PrimaryOutcome
  fallbackVideos : Nat → Except PyErr (List VideoResource)
  validatorResp : Nat → ValidatorResponse
  issueIds : Nat → String
  editorResp : Nat → String → EditorResponse
  editorSection : Nat → String → Option ResearchSectionResponse
  roadmapId : String

/-- The terminal except clause of run_pipeline (orchestrator.py lines
325-335): stage becomes error, the message is recorded, nothing is saved. -/
def pipelineError (st : PipelineState) (e : PyErr) : PipelineState × Option SavedRoadmap :=
  ({ st with stage := PipelineStage.error, error_message := some (pyErrMessage e) }, none)

/-- _run_researchers_parallel (orchestrator.py lines 379-482): one
research_session call per outline item.  The call site passes the keyword
all_session_outlines, which research_session does not accept, so every task
raises TypeError and the first completed failure is re-raised (lines
466-472).  On success the results are sorted by order (line 475). -/
def runResearchStage (research : Nat → Except PyErr ResearchResponse)
    (items : List SessionOutlineItem) : Except PyErr (List ResearchedSession) :=
  if pyKwargsOk researchSessionParams researchCallKwargs then
    match items.enum.mapM (fun si => (research si.1).map (research_session si.2)) with
    | .error e => .error e
    | .ok ss => .ok (List.insertionSort (fun a b => a.order ≤ b.order) ss)
  else .error (.typeError "research_session got an unexpected keyword argument all_session_outlines")

/-- _run_youtube_agent (orchestrator.py lines 484-555): find_videos per
session, threading the class-level quota flag; any exception degrades that
session to an empty video list (lines 533-535). -/
def runVideoStage (env : PipelineEnv) (sessions : List ResearchedSession) (flag : Bool) :
    List ResearchedSession × Bool :=
  let step := fun (acc : List ResearchedSession × Bool) (si : Nat × ResearchedSession) =>
    let r := find_videos acc.2 (env.primary si.1) (env.fallbackVideos si.1)
    let vids :=
      match r.2.2 with
      | .ok vs => vs
      | .error _ => []
    (acc.1 ++ [ { si.2 with videos := vids } ], r.1)
  sessions.enum.foldl step ([], flag)

/-- The issue grouping of _run_editor (orchestrator.py lines 615-620),
keeping Python dict insertion order. -/
def addIssueToGroups (groups : List (String × List ValidationIssue)) (sid : String)
    (issue : ValidationIssue) : List (String × List ValidationIssue) :=
  if groups.any (fun g => g.1 == sid) then
    groups.map (fun g => if g.1 == sid then (g.1, g.2 ++ [ issue ]) else g)
  else groups ++ [ (sid, [ issue ]) ]

/-- Groups issues by affected session id (orchestrator.py lines 615-620). -/
def groupIssues (issues : List ValidationIssue) : List (String × List ValidationIssue) :=
  issues.foldl
    (fun acc issue => issue.affected_session_ids.foldl
      (fun acc2 sid => addIssueToGroups acc2 sid issue) acc)
    []

/-- _run_editor (orchestrator.py lines 593-739).  Its first statement (line
611) is `self.state.fix_attempt += 1`, whose read raises AttributeError since
PipelineState declares no such field; the rest of the body (grouping, the
fix_history append at line 630, per-session edits, replace, sort) is embedded
behind that gate.  n tracks the value fix_attempt would hold. -/
def run_editor (env : PipelineEnv) (outline : SessionOutline) (vr : ValidationResult)
    (sessions : List ResearchedSession) (st : PipelineState) (n : Nat) (attemptIdx : Nat) :
    Except (PyErr × PipelineState) (List ResearchedSession × PipelineState × Nat) :=
  match readFixAttempt n with
  | .error e => .error (e, st)
  | .ok m =>
    let n2 := m + 1
    let st2 := { st with stage := PipelineStage.revising }
    let groups := groupIssues vr.issues
    match readFixHistory with
    | .error e => .error (e, st2)
    | .ok _ =>
      let edited := groups.map (fun g =>
        match sessions.find? (fun s => s.outline_id == g.1),
              outline.sessions.find? (fun it => it.id == g.1) with
        | some s, some _ =>
          (g.1, some (edit_session s (env.editorResp attemptIdx g.1)
            (env.editorSection attemptIdx g.1) st.language))
        | _, _ => (g.1, none))
      let updated := sessions.map (fun s =>
        match (edited.find? (fun e => e.1 == s.outline_id)).bind (fun e => e.2) with
        | some es => es
        | none => s)
      .ok (List.insertionSort (fun a b => a.order ≤ b.order) updated, st2, n2)

/-- The auto-fix loop of run_pipeline (orchestrator.py lines 240-276):
`while not validation_result.is_valid and self.state.fix_attempt < 2`.  The
guard short-circuits, so fix_attempt is read only when the result is invalid;
that read raises AttributeError.  Returns the outcome together with the
number of edit attempts actually performed.  fuel only bounds the Lean
recursion; the source loop is bounded by the budget check in the guard. -/
def fix_loop (env : PipelineEnv) (outline : SessionOutline) (k : Nat) (vr : ValidationResult)
    (sessions : List ResearchedSession) (st : PipelineState) (n : Nat) :
    Nat → (Except (PyErr × PipelineState) (ValidationResult × List ResearchedSession × PipelineState)) × Nat
  | 0 => (.ok (vr, sessions, st), n)
  | fuel + 1 =>
    if vr.is_valid then (.ok (vr, sessions, st), n)
    else
      match readFixAttempt n with
      | .error e => (.error (e, st), n)
      | .ok m =>
        if m < 2 then
          match run_editor env outline vr sessions st n k with
          | .error est => (.error est, n)
          | .ok (sessions2, st2, n2) =>
            let st3 := { st2 with researched_sessions := sessions2,
                                  stage := PipelineStage.validating }
            match validate (env.validatorResp (k + 1)) sessions2 env.issueIds with
            | .error e => (.error (e, st3), n2)
            | .ok vr2 =>
              let st4 := { st3 with validation_result := some vr2 }
              fix_loop env outline (k + 1) vr2 sessions2 st4 n2 fuel
        else (.ok (vr, sessions, st), n)

/-- run_pipeline (orchestrator.py lines 143-335), from the architect stage to
completion, for a state already holding the interview questions and answers.
Stage structure: _run_architect sets stage architecting then calls
create_outline with the keyword language, which create_outline does not
accept; research, video, validate, fix-loop, post-loop logging (lines 279-291
read state.fix_attempt in both branches), then _save_roadmap and stage
complete.  Any raise is caught by the single except clause. -/
def run_pipeline (env : PipelineEnv) (st0 : PipelineState) : PipelineState × Option SavedRoadmap :=
  let st1 := { st0 with stage := PipelineStage.architecting }
  if pyKwargsOk createOutlineParams architectCallKwargs then
    match create_outline env.phase1 env.details env.sessionIds with
    | .error e => pipelineError st1 e
    | .ok tr =>
      let st2 := { st1 with session_outline := some tr.2, suggested_title := some tr.1,
                            stage := PipelineStage.researching }
      match runResearchStage env.research tr.2.sessions with
      | .error e => pipelineError st2 e
      | .ok sessions =>
        let st3 := { st2 with researched_sessions := sessions }
        let sv := runVideoStage env sessions false
        let st4 := { st3 with researched_sessions := sv.1, stage := PipelineStage.validating }
        match validate (env.validatorResp 0) sv.1 env.issueIds with
        | .error e => pipelineError st4 e
        | .ok vr0 =>
          let st5 := { st4 with validation_result := some vr0 }
          match fix_loop env tr.2 0 vr0 sv.1 st5 0 3 with
          | (.error est, _) => pipelineError est.2 est.1
          | (.ok (vrF, sessionsF, stL), nF) =>
            match readFixAttempt nF with
            | .error e => pipelineError stL e
            | .ok _ =>
              let st6 := { stL with validation_result := some vrF }
              let sr := save_roadmap env.roadmapId st6 tr.2 sessionsF
              ({ sr.1 with stage := PipelineStage.complete }, some sr.2)
  else
    pipelineError st1 (.typeError "create_outline got an unexpected keyword argument language")

/-! ## Predicates used by the theorems -/

/-- Lifts a property over the success case of an Except value. -/
def onOk {ε α : Type} (r : Except ε α) (P : α → Prop) : Prop :=
  match r with
  | .ok a => P a
  | .error _ => True

/-- Every prerequisite of every item references the id of an item created
earlier in the same outline (no forward or self references). -/
def prereqsEarlierOnly (items : List SessionOutlineItem) : Prop :=
  ∀ j, (hj : j < items.length) → ∀ p ∈ (items.get ⟨j, hj⟩).prerequisites,
    p ∈ (items.take j).map (fun it => it.id)

/-! ## Concrete scenario inputs -/

/-- Interview question n of the happy-path scenario. -/
def happyQuestion (n : Nat) : InterviewQuestion :=
  { id := "q" ++ toString n, question := "Question " ++ toString n,
    purpose := "purpose", example_options := [], allows_freeform := true }

/-- Interview answer n of the happy-path scenario. -/
def happyAnswer (n : Nat) : InterviewAnswer :=
  { question_id := "q" ++ toString n, answer := "Answer " ++ toString n }

/-- Pipeline state at the start of the happy-path run: topic Learn Python,
5 questions answered. -/
def happyState : PipelineState :=
  { pipeline_id := "pipeline_happy", user_id := "user1", topic := "Learn Python",
    language := "en", stage := PipelineStage.initialized,
    interview_questions := (List.range 5).map happyQuestion,
    interview_answers := (List.range 5).map happyAnswer,
    suggested_title := none, confirmed_title := none, session_outline := none,
    researched_sessions := [], research_progress := 0, research_total := 0,
    validation_result := none, user_selected_issues := [], roadmap_id := none,
    error_message := none }

/-- Phase 1 session n of the happy-path scenario. -/
def happyMinimal (n : Nat) : SessionOutlineMinimal :=
  { title := "Session " ++ toString n, session_type := "concept" }

/-- Phase 2 detail of every happy-path session: 60 minutes, no prerequisites. -/
def happyDetail : SessionDetailResponse :=
  { objective := "objective", estimated_duration_minutes := 60, prerequisites := [] }

/-- Happy-path environment: the Architect returns 8 sessions, every research
call succeeds, and the Validator returns is_valid true with score 88. -/
def happyEnv : PipelineEnv :=
  { phase1 := { title := "Python Roadmap", sessions := (List.range 8).map happyMinimal,
                learning_path_summary := "A learning path" }
    details := List.replicate 8 happyDetail
    sessionIds := fun n => "session_" ++ toString n
    research := fun _ => .ok { content := "content", key_concepts := [ "kc" ],
                               resources := [], exercises := [] }
    primary := fun _ => PrimaryOutcome.ok []
    fallbackVideos := fun _ => .ok []
    validatorResp := fun _ => { is_valid := true, issues := [], overall_score := 88,
                                summary := "Good" }
    issueIds := fun n => "issue_" ++ toString n
    editorResp := fun _ _ => { edited_content := "edited", needs_research := false,
                               research_request := none }
    editorSection := fun _ _ => none
    roadmapId := "roadmap_1" }

/-- Environment whose validator always reports a high-severity issue at
session index 0, hence is_valid false on every call. -/
def alwaysInvalidEnv : PipelineEnv :=
  { happyEnv with validatorResp := fun _ =>
      { is_valid := false,
        issues := [ { issue_type := "gap", severity := "high",
                      description := "Missing prerequisite content",
                      affected_session_indices := [ 0 ],
                      suggested_fix := "Add it" } ],
        overall_score := 40, summary := "Needs work" } }

/-- The single researched session of the always-invalid scenario. -/
def c2Session : ResearchedSession :=
  { outline_id := "session_0", title := "Intro", session_type := SessionType.concept,
    order := 1, content := "content", key_concepts := [], resources := [],
    exercises := [], videos := [], language := "en" }

/-- The outline of the always-invalid scenario. -/
def c2Outline : SessionOutline :=
  { sessions := [ { id := "session_0", title := "Intro", objective := "obj",
                    session_type := SessionType.concept,
                    estimated_duration_minutes := 60, prerequisites := [], order := 1 } ],
    learning_path_summary := "summary", total_estimated_hours := 1 }

/-- The ValidationResult the always-invalid validator response converts to. -/
def c2Invalid : ValidationResult :=
  { is_valid := false,
    issues := [ { id := "issue_0", issue_type := ValidationIssueType.gap,
                  severity := "high", description := "Missing prerequisite content",
                  affected_session_ids := [ "session_0" ], suggested_fix := "Add it" } ],
    overall_score := 40, summary := "Needs work" }

/-- Phase 1 input of the negative-prerequisite counterexample. -/
def negPhase1 : ArchitectPhase1Response :=
  { title := "Title", sessions := [ { title := "Intro", session_type := "concept" } ],
    learning_path_summary := "sum" }

/-- Phase 2 detail whose prerequisites list holds the negative index -1. -/
def negDetail : SessionDetailResponse :=
  { objective := "obj", estimated_duration_minutes := 60, prerequisites := [ -1 ] }

/-- Phase 1 input of the prerequisite-invariant witness (two sessions). -/
def c7wPhase1 : ArchitectPhase1Response :=
  { title := "Title",
    sessions := [ { title := "Basics", session_type := "concept" },
                  { title := "Practice", session_type := "practice" } ],
    learning_path_summary := "sum" }

/-- Phase 2 details of the prerequisite-invariant witness: the second session
lists indices 0 (valid), 1 (self) and 5 (forward / out of range). -/
def c7wDetails : List SessionDetailResponse :=
  [ { objective := "obj0", estimated_duration_minutes := 60, prerequisites := [] },
    { objective := "obj1", estimated_duration_minutes := 90, prerequisites := [ 0, 1, 5 ] } ]

/-- A session written in Hebrew, as input to the editor counterexample. -/
def heSession : ResearchedSession :=
  { outline_id := "session_he", title := "Intro", session_type := SessionType.concept,
    order := 1, content := "original", key_concepts := [ "a" ], resources := [],
    exercises := [], videos := [], language := "he" }

/-- A plain editor response with no research request. -/
def plainEdit : EditorResponse :=
  { edited_content := "rewritten", needs_research := false, research_request := none }

/-- A concrete verified video used in the quota-fallback witness. -/
def cexVideo : VideoResource :=
  { url := "https://www.youtube.com/watch?v=abc", title := "Video",
    channel := "Channel", thumbnail_url := "thumb", duration_minutes := none,
    description := none }

/-! ## Helper lemmas -/

theorem pyIndex_mem {α : Type} (xs : List α) (i : Int) (x : α)
    (h : pyIndex xs i = some x) : x ∈ xs := by
  unfold pyIndex at h
  split at h
  · exact List.get?_mem h
  · split at h
    · exact List.get?_mem h
    · exact absurd h (by simp)

theorem resolvePrereqs_mem (built : List SessionOutlineItem) :
    ∀ (l : List Int) (ps : List String), resolvePrereqs built l = .ok ps →
      ∀ p ∈ ps, p ∈ built.map (fun it => it.id) := by
  intro l
  induction l with
  | nil =>
    intro ps h p hp
    simp only [ resolvePrereqs ] at h
    cases h
    simp at hp
  | cons idx rest ih =>
    intro ps h p hp
    unfold resolvePrereqs at h
    split at h
    · cases hidx : pyIndex built idx with
      | none => rw [ hidx ] at h; exact absurd h (by simp)
      | some item =>
        rw [ hidx ] at h
        cases hrec : resolvePrereqs built rest with
        | error e => rw [ hrec ] at h; exact absurd h (by simp)
        | ok tl =>
          rw [ hrec ] at h
          injection h with h2
          subst h2
          rcases List.mem_cons.mp hp with hpe | hpt
          · subst hpe
            exact List.mem_map.mpr ⟨item, pyIndex_mem built idx item hidx, rfl⟩
          · exact ih tl hrec p hpt
    · exact ih ps h p hp

theorem prereqsEarlierOnly_nil : prereqsEarlierOnly [] := by
  intro j hj p hp
  simp at hj

theorem prereqsEarlierOnly_append (built : List SessionOutlineItem)
    (item : SessionOutlineItem) (hb : prereqsEarlierOnly built)
    (hitem : ∀ p ∈ item.prerequisites, p ∈ built.map (fun it => it.id)) :
    prereqsEarlierOnly (built ++ [ item ]) := by
  intro j hj p hp
  rcases Nat.lt_or_ge j built.length with hlt | hge
  · have hget : (built ++ [ item ]).get ⟨j, hj⟩ = built.get ⟨j, hlt⟩ := by
      simp [ List.get_eq_getElem, List.getElem_append_left hlt ]
    rw [ hget ] at hp
    rw [ List.take_append_of_le_length (Nat.le_of_lt hlt) ]
    exact hb j hlt p hp
  · have hj2 : j < built.length + 1 := by simpa using hj
    have hje : j = built.length := by omega
    subst hje
    have hget : (built ++ [ item ]).get ⟨built.length, hj⟩ = item := by
      simp [ List.get_eq_getElem ]
    rw [ hget ] at hp
    have htake : (built ++ [ item ]).take built.length = built := by
      rw [ List.take_append_of_le_length (Nat.le_refl _) ]
      simp
    rw [ htake ]
    exact hitem p hp

theorem buildSessions_earlier_only (ids : Nat → String) :
    ∀ (l : List (SessionOutlineMinimal × SessionDetailResponse))
      (built : List SessionOutlineItem) (i : Nat) (items : List SessionOutlineItem),
      prereqsEarlierOnly built → buildSessions ids l built i = .ok items →
      prereqsEarlierOnly items := by
  intro l
  induction l with
  | nil =>
    intro built i items hb h
    simp only [ buildSessions ] at h
    cases h
    exact hb
  | cons hd tl ih =>
    intro built i items hb h
    obtain ⟨minimal, details⟩ := hd
    unfold buildSessions at h
    cases hres : resolvePrereqs built details.prerequisites with
    | error e => rw [ hres ] at h; exact absurd h (by simp)
    | ok prereqs =>
      rw [ hres ] at h
      exact ih _ _ _
        (prereqsEarlierOnly_append built _ hb (resolvePrereqs_mem built _ _ hres)) h

theorem drop_cons_after_append {β : Type} (A : List β) (x : β) (L : List β) :
    (A ++ x :: L).drop (A.length + 1) = L := by
  induction A with
  | nil => rfl
  | cons a A ih =>
    simp only [ List.cons_append, List.length_cons, List.drop_succ_cons ]
    exact ih

theorem processCalls_length (flag : Bool)
    (l : List (PrimaryOutcome × Except PyErr (List VideoResource))) :
    (processCalls flag l).length = l.length := by
  induction l generalizing flag with
  | nil => rfl
  | cons c rest ih => simp [ processCalls, ih ]

theorem processCalls_true (l : List (PrimaryOutcome × Except PyErr (List VideoResource))) :
    processCalls true l = l.map (fun c => (false, c.2)) := by
  induction l with
  | nil => rfl
  | cons c rest ih => simp [ processCalls, find_videos, ih ]

theorem processCalls_append (flag : Bool)
    (l1 l2 : List (PrimaryOutcome × Except PyErr (List VideoResource))) :
    processCalls flag (l1 ++ l2) =
      processCalls flag l1 ++ processCalls (flagAfter flag l1) l2 := by
  induction l1 generalizing flag with
  | nil => simp [ processCalls, flagAfter ]
  | cons c rest ih => simp [ processCalls, flagAfter, ih ]

theorem find_videos_signal_flag (flag : Bool) (p : PrimaryOutcome)
    (fb : Except PyErr (List VideoResource)) (h : p = .quota ∨ p = .missingKey) :
    (find_videos flag p fb).1 = true := by
  rcases h with rfl | rfl <;> cases flag <;> rfl

theorem generateStructuredGo_all_fail {α : Type} (err : Nat → String)
    (attemptResult : Nat → Except String α)
    (hfail : ∀ k, attemptResult k = .error (err k)) :
    ∀ (n k : Nat) (lastErr : Option String),
      generateStructuredGo attemptResult n k lastErr =
        (.error (.exhausted (k + n) (if n = 0 then lastErr else some (err (k + n - 1)))),
          k + n) := by
  intro n
  induction n with
  | zero => intro k lastErr; simp [ generateStructuredGo ]
  | succ m ih =>
    intro k lastErr
    simp only [ generateStructuredGo, hfail k ]
    cases m with
    | zero =>
      simp [ generateStructuredGo ]
    | succ m2 =>
      rw [ ih (k + 1) (some (err k)) ]
      have e1 : (k + 1) + (m2 + 1) = k + (m2 + 1 + 1) := by omega
      simp [ e1 ]

/-! ## Claim theorems -/

/-- C1: the happy-path scenario (topic Learn Python, 5 questions answered,
architect returns 8 sessions, every research call succeeds, validator returns
is_valid true with score 88) does not reach stage complete: run_pipeline
raises TypeError at the architect call, because _run_architect passes the
keyword language which create_outline does not accept (orchestrator.py
351-354 against architect.py 146-149), so the run ends at stage error with
nothing persisted. -/
theorem happy_path_pipeline_errors :
    (run_pipeline happyEnv happyState).1.stage = PipelineStage.error ∧
    (run_pipeline happyEnv happyState).2 = none ∧
    (run_pipeline happyEnv happyState).1.error_message =
      some "create_outline got an unexpected keyword argument language" :=
  ⟨rfl, rfl, rfl⟩

/-- C2: with a validator that always reports a high-severity issue (hence
is_valid false on every call), the auto-fix loop performs zero edit attempts
and raises AttributeError at its first guard evaluation, because PipelineState
(state.py 170-210) declares no fix_attempt field that orchestrator.py line
242 reads; it never reaches the save stage.  The first conjunct checks that
the always-invalid validator response converts to the invalid
ValidationResult fed to the loop. -/
theorem invalid_validation_fix_loop_attribute_error :
    validate (alwaysInvalidEnv.validatorResp 0) [ c2Session ]
        (fun n => "issue_" ++ toString n) = .ok c2Invalid ∧
    fix_loop alwaysInvalidEnv c2Outline 0 c2Invalid [ c2Session ] happyState 0 3 =
      (.error (.attributeError fixAttemptMissingMsg, happyState), 0) :=
  ⟨rfl, rfl⟩

/-- C3: when every attempt fails parsing/validation, generate_structured
performs exactly maxRetries + 1 underlying generation attempts and raises the
terminal exhaustion error carrying the last underlying error (base.py lines
284-338). -/
theorem generate_structured_retry_exhaustion {α : Type} (maxRetries : Nat)
    (err : Nat → String) (attemptResult : Nat → Except String α)
    (hfail : ∀ k, attemptResult k = .error (err k)) :
    generate_structured maxRetries attemptResult =
      (.error (.exhausted (maxRetries + 1) (some (err maxRetries))), maxRetries + 1) := by
  unfold generate_structured
  rw [ generateStructuredGo_all_fail err attemptResult hfail (maxRetries + 1) 0 none ]
  simp

/-- C3 witness: with budget 2 and all attempts failing, exactly 3 attempts
happen and the terminal error carries the last failure. -/
theorem generate_structured_retry_exhaustion_witness :
    generate_structured 2 (fun k => (.error (toString k) : Except String Nat)) =
      (.error (.exhausted 3 (some "2")), 3) :=
  generate_structured_retry_exhaustion 2 (fun k => toString k) _ (fun _ => rfl)

/-- C4: network-level failures are retried with exponential backoff — the
delay before retry k+1 doubles the previous delay, capped at the maximum —
within the fixed attempt budget NETWORK_RETRY_ATTEMPTS; when every attempt
fails with a network error, the raw last network error surfaces after exactly
NETWORK_RETRY_ATTEMPTS raw call attempts with backoff sleeps between them;
and this retry axis is distinct from parse-failure retry: a non-network error
propagates from the first attempt with no retry and no sleep. -/
theorem network_retry_backoff_spec (m : Nat → String) (mo : String) :
    (call_with_network_retry (fun k => (.error (.network (m k)) : Except NetCallError Unit)) =
      (.error (.network (m (NETWORK_RETRY_ATTEMPTS - 1))), NETWORK_RETRY_ATTEMPTS,
        [ backoffDelay 0, backoffDelay 1 ])) ∧
    (∀ k, backoffDelay (k + 1) = min (2 * backoffDelay k) NETWORK_RETRY_MAX_DELAY) ∧
    backoffDelay 0 = NETWORK_RETRY_BASE_DELAY ∧
    (call_with_network_retry (fun _ => (.error (.other mo) : Except NetCallError Unit)) =
      (.error (.other mo), 1, [])) := by
  refine ⟨rfl, ?_, ?_, rfl⟩
  · intro k
    unfold backoffDelay NETWORK_RETRY_BASE_DELAY NETWORK_RETRY_MAX_DELAY
    simp only [ one_mul ]
    rcases le_total ((2 : ℚ) ^ k) 30 with h | h
    · rw [ min_eq_left h, pow_succ, mul_comm ]
    · have h2 : (30 : ℚ) ≤ 2 ^ (k + 1) :=
        le_trans h (pow_le_pow_right₀ (by norm_num) (Nat.le_succ k))
      rw [ min_eq_right h2, min_eq_right h,
        min_eq_right (by norm_num : (30 : ℚ) ≤ 2 * 30) ]
  · rw [ backoffDelay, min_eq_left ] <;>
      norm_num [ NETWORK_RETRY_BASE_DELAY, NETWORK_RETRY_MAX_DELAY ]

/-- C5: for every ValidationResult produced by Validator.validate (for every
raw validator response and session list, including the empty issue set),
is_valid is true exactly when no contained issue has severity high
(validator.py lines 126-134). -/
theorem validator_validity_gate (resp : ValidatorResponse)
    (sessions : List ResearchedSession) (ids : Nat → String) :
    onOk (validate resp sessions ids)
      (fun r => (r.is_valid = true ↔ ∀ i ∈ r.issues, i.severity ≠ "high")) := by
  unfold onOk validate
  cases h : buildIssues sessions ids resp.issues 0 with
  | error e => simp
  | ok issues =>
    simp only []
    constructor
    · intro hv i hi
      intro hsev
      have : issues.any (fun i => i.severity == "high") = true :=
        List.any_eq_true.mpr ⟨i, hi, by simp [ hsev ]⟩
      simp [ this ] at hv
    · intro hall
      have : issues.any (fun i => i.severity == "high") = false := by
        rw [ List.any_eq_false ]
        intro i hi
        simpa using hall i hi
      simp [ this ]

/-- C5 witness: the validity gate instantiated at the empty issue set. -/
theorem validator_validity_gate_witness :
    onOk (validate { is_valid := true, issues := [], overall_score := 85, summary := "ok" }
        [] (fun n => "issue_" ++ toString n))
      (fun r => (r.is_valid = true ↔ ∀ i ∈ r.issues, i.severity ≠ "high")) :=
  validator_validity_gate
    { is_valid := true, issues := [], overall_score := 85, summary := "ok" }
    [] (fun n => "issue_" ++ toString n)

/-- C6 counterexample: with confirmed_title set to the empty string and a
suggested title present, the saved title is the suggested title, not the
set user-confirmed value — the precedence chain tests truthiness, so the
claim that a set user-confirmed title always wins fails. -/
theorem title_precedence_empty_string_cex :
    resolve_title (some "") (some "Python Basics") "Learn Python" = "Python Basics" ∧
    "Python Basics" ≠ "" :=
  ⟨rfl, by decide⟩

/-- C6 amended: the persisted title is the user-confirmed title when set and
non-empty; otherwise the suggested title when set and non-empty; otherwise
the topic truncated to 100 characters (orchestrator.py line 750). -/
theorem title_precedence_truthy (c s : Option String) (t : String) :
    (∀ v, c = some v → v ≠ "" → resolve_title c s t = v) ∧
    ((c = none ∨ c = some "") → ∀ w, s = some w → w ≠ "" → resolve_title c s t = w) ∧
    ((c = none ∨ c = some "") → (s = none ∨ s = some "") →
      resolve_title c s t = t.take 100) := by
  refine ⟨?_, ?_, ?_⟩
  · intro v hv hne
    subst hv
    simp [ resolve_title, pyOr, hne ]
  · rintro (rfl | rfl) w rfl hne <;> simp [ resolve_title, pyOr, hne ]
  · rintro (rfl | rfl) (rfl | rfl) <;> simp [ resolve_title, pyOr ]

/-- C6 witness: each precedence tier at concrete inputs. -/
theorem title_precedence_truthy_witness :
    resolve_title (some "Deep Python") (some "Python Basics") "Learn Python" = "Deep Python" ∧
    resolve_title none (some "Python Basics") "Learn Python" = "Python Basics" ∧
    resolve_title none none "Learn Python" = ("Learn Python" : String).take 100 :=
  ⟨(title_precedence_truthy (some "Deep Python") (some "Python Basics") "Learn Python").1
      "Deep Python" rfl (by decide),
   (title_precedence_truthy none (some "Python Basics") "Learn Python").2.1
      (Or.inl rfl) "Python Basics" rfl (by decide),
   (title_precedence_truthy none none "Learn Python").2.2 (Or.inl rfl) (Or.inl rfl)⟩

/-- C7 counterexample: a Phase 2 response whose prerequisites hold the
negative index -1 for the first session is not dropped by the filter
`idx < len(sessions)` (architect.py line 195); Python then indexes the empty
list at -1 and create_outline raises IndexError instead of filtering. -/
theorem negative_prerequisite_index_raises :
    create_outline negPhase1 [ negDetail ] (fun n => "s" ++ toString n) =
      .error PyErr.indexError := rfl

/-- C7 amended: whenever create_outline succeeds, every constructed item
references only ids of earlier-created items in the same outline (no forward
or self references): non-negative out-of-range indices, including self and
forward references, are dropped by the filter, while negative indices either
resolve to an earlier-created item by Python reverse indexing or raise
IndexError (so success still guarantees the invariant). -/
theorem prereqs_reference_earlier_only (phase1 : ArchitectPhase1Response)
    (details : List SessionDetailResponse) (ids : Nat → String) :
    onOk (create_outline phase1 details ids) (fun r => prereqsEarlierOnly r.2.sessions) := by
  unfold onOk create_outline
  cases h : buildSessions ids (phase1.sessions.zip details) [] 0 with
  | error e => simp
  | ok sessions =>
    simp only []
    exact buildSessions_earlier_only ids _ [] 0 sessions prereqsEarlierOnly_nil h

/-- C7 witness: the invariant at a concrete two-session outline whose second
session lists a valid, a self and a forward prerequisite index. -/
theorem prereqs_reference_earlier_only_witness :
    onOk (create_outline c7wPhase1 c7wDetails (fun n => "s" ++ toString n))
      (fun r => prereqsEarlierOnly r.2.sessions) :=
  prereqs_reference_earlier_only c7wPhase1 c7wDetails (fun n => "s" ++ toString n)

/-- C8: once the primary provider signals quota exhaustion (or missing
configuration) during any find_videos call, every subsequent call in the same
process never invokes the primary tier and returns the fallback-tier result:
after the signalling call, each later call record is (false, fallback) —
primary not invoked, fallback used (youtube.py lines 64-65, 78-101). -/
theorem quota_fallback_persists
    (pre post : List (PrimaryOutcome × Except PyErr (List VideoResource)))
    (p : PrimaryOutcome) (fb : Except PyErr (List VideoResource))
    (h : p = .quota ∨ p = .missingKey) :
    (processCalls false (pre ++ (p, fb) :: post)).drop (pre.length + 1) =
      post.map (fun c => (false, c.2)) := by
  rw [ processCalls_append ]
  have hstep : processCalls (flagAfter false pre) ((p, fb) :: post) =
      ((find_videos (flagAfter false pre) p fb).2.1,
        (find_videos (flagAfter false pre) p fb).2.2) ::
        processCalls (find_videos (flagAfter false pre) p fb).1 post := rfl
  rw [ hstep, find_videos_signal_flag _ _ _ h, processCalls_true ]
  rw [ ← processCalls_length false pre ]
  exact drop_cons_after_append _ _ _

/-- C8 witness: a first successful call, then a quota signal, then two later
calls that skip the primary tier and return their fallback results. -/
theorem quota_fallback_persists_witness :
    (processCalls false
        ([ (PrimaryOutcome.ok [ cexVideo ], .ok []) ] ++
          (PrimaryOutcome.quota, (.ok [] : Except PyErr (List VideoResource))) ::
          [ (PrimaryOutcome.ok [ cexVideo ], .ok [ cexVideo ]),
            (PrimaryOutcome.missingKey, .ok []) ])).drop 2 =
      [ (false, .ok [ cexVideo ]), (false, .ok []) ] :=
  quota_fallback_persists
    [ (PrimaryOutcome.ok [ cexVideo ], .ok []) ]
    [ (PrimaryOutcome.ok [ cexVideo ], .ok [ cexVideo ]),
      (PrimaryOutcome.missingKey, .ok []) ]
    PrimaryOutcome.quota (.ok []) (Or.inl rfl)

/-- C9 counterexample: a session whose language is he, edited with the
default language argument en, comes back with language en — the language
field is not carried over from the input session (editor.py line 162), so
the claim that all fields other than content and videos are preserved fails. -/
theorem editor_language_not_carried_cex :
    (edit_session heSession plainEdit none "en").language ≠ heSession.language := by
  decide

/-- C9 amended: edit_session carries over outline_id, title, session_type,
order, key_concepts, resources, exercises — and also videos — unchanged from
the input session, while language is set from the language parameter
(editor.py lines 151-163). -/
theorem editor_fields_carried_amended (session : ResearchedSession)
    (response : EditorResponse) (research : Option ResearchSectionResponse)
    (language : String) :
    (edit_session session response research language).outline_id = session.outline_id ∧
    (edit_session session response research language).title = session.title ∧
    (edit_session session response research language).session_type = session.session_type ∧
    (edit_session session response research language).order = session.order ∧
    (edit_session session response research language).key_concepts = session.key_concepts ∧
    (edit_session session response research language).resources = session.resources ∧
    (edit_session session response research language).exercises = session.exercises ∧
    (edit_session session response research language).videos = session.videos ∧
    (edit_session session response research language).language = language :=
  ⟨rfl, rfl, rfl, rfl, rfl, rfl, rfl, rfl, rfl⟩

/-- C10: an empty-string confirmed_title behaves exactly like an unset one —
the precedence chain tests truthiness, so the empty user-confirmed title is
never persisted and resolution falls back to the suggested title or the
truncated topic (orchestrator.py line 750). -/
theorem empty_confirmed_title_falls_back (s : Option String) (t : String) :
    resolve_title (some "") s t = resolve_title none s t := rfl

end RoadmapBuilder
